import Mathlib

/-! Shallow embedding of the davefront chat client (a React/TypeScript front-end).

The pieces modelled here are the ones the behavioural claims are about:
  * the transport-layer shapes of `src/types/chat.ts`;
  * the stateful chat view `src/components/ChatInterface.tsx`, embedded as
    pure state-transition functions over an explicit `ChatState` record
    (React `useState` cells become record fields; each async handler becomes
    a function taking the pre-call state plus the outcome of the backend
    call it awaits, and returning the post-call state);
  * the session store `src/contexts/AuthContext.tsx`, embedded the same way
    over an `AuthState` record (the `localStorage` slot `auth_token` is a
    field of the state);
  * the error-normalising catch blocks of `src/services/api.ts`.

JavaScript truthiness of `string | null | undefined` values and of the `||`
operator is modelled explicitly (`strTruthy`, `jsOrStr`, `jsOrNat`): `null`,
`undefined`, the empty string and the number 0 are falsy.  A `Date` value is
modelled by the `JsDate` inductive, remembering how it was constructed.
A thrown JavaScript value is either a plain `ApiError` object (what the api
wrappers throw) or an `Error` instance carrying a message (`Thrown`).
-/

set_option maxRecDepth 8192

namespace Davefront

/-- Definition of `Source` from `src/types/chat.ts`: a citation attached to an assistant
turn.  The opaque `metadata: Record<string, any>` blob is kept as an
association list of strings. -/
structure Source where
  document_id : String
  owner_type : String
  content_excerpt : String
  metadata : List (String × String)
deriving DecidableEq, Repr

/-- A JavaScript `Date`, remembered by construction: `JsDate.fromMs n` is a
date built from the clock (`new Date()` at epoch-milliseconds `n`), and
`JsDate.parse s` is `new Date(s)` for a backend timestamp string. -/
inductive JsDate where
  | fromMs (ms : Nat)
  | parse (s : String)
deriving DecidableEq, Repr

/-- Definition of `ChatMessage` from `src/types/chat.ts`: an in-memory transcript entry.
`role` is kept as a `String` because `ChatInterface.loadConversation` casts
the persisted message role with `as 'user' | 'assistant'`, unchecked. -/
structure ChatMessage where
  id : String
  role : String
  content : String
  timestamp : JsDate
  sources : Option (List Source)
deriving DecidableEq, Repr

/-- Definition of `Message` from `src/types/chat.ts`: a persisted conversation turn as the
backend returns it from `GET /conversations/{id}/messages`. -/
structure Message where
  id : String
  conversation_id : String
  user_id : String
  content : String
  role : String
  timestamp : String
deriving DecidableEq, Repr

/-- The entries of the `chat_history` array built in
`ChatInterface.handleSendMessage`: `{ role: msg.role, content: msg.content }`. -/
structure HistoryEntry where
  role : String
  content : String
deriving DecidableEq, Repr

/-- Definition of `ChatRequest` from `src/types/chat.ts` (the body of `POST /chat`), with
the optional `conversation_id` as an `Option`. -/
structure ChatRequest where
  message : String
  chat_history : List HistoryEntry
  conversation_id : Option String
deriving DecidableEq, Repr

/-- Definition of `ChatResponse` from `src/types/chat.ts`: the reply of `POST /chat`.
`sources` and `conversation_id` are optional fields. -/
structure ChatResponse where
  response : String
  sources : Option (List Source)
  conversation_id : Option String
deriving DecidableEq, Repr

/-- Definition of `ApiError` from `src/types/chat.ts`: the uniform error object the api
wrappers throw. -/
structure ApiError where
  detail : String
  status : Nat
deriving DecidableEq, Repr

/-- A thrown JavaScript value as the catch blocks of this codebase see it:
either the plain `ApiError` object thrown by the api wrappers (not an
`Error` instance) or a genuine `Error` carrying a message. -/
inductive Thrown where
  | api (e : ApiError)
  | err (message : String)
deriving DecidableEq, Repr

/-- Definition of `err instanceof Error ? err.message : fallback` — the pattern used by
`loadConversation` and `handleSendMessage` in `ChatInterface.tsx`.  A plain
`ApiError` object is not an `Error` instance, so it yields the fallback. -/
def Thrown.messageOr (t : Thrown) (fallback : String) : String :=
  match t with
  | .api _ => fallback
  | .err m => m

/-- Definition of `err.detail || fallback` — the pattern used by
`handleDeleteConversation` and `handleSaveTitle` in `ChatInterface.tsx`.
On an `Error` instance `err.detail` is `undefined` (falsy); an empty detail
string is also falsy. -/
def Thrown.detailOr (t : Thrown) (fallback : String) : String :=
  match t with
  | .api e => if e.detail = "" then fallback else e.detail
  | .err _ => fallback

/-- JavaScript truthiness of a `string | null | undefined` value: `null`,
`undefined` and the empty string are falsy. -/
def strTruthy : Option String → Bool
  | none => false
  | some s => s ≠ ""

/-- Definition of `x || undefined` on a `string | null` value, as in the
`conversation_id: currentConversationId || undefined` field of the request
built by `handleSendMessage`. -/
def orUndefined (o : Option String) : Option String :=
  if strTruthy o then o else none

/-- Definition of `a || b` on an optional string, as in
`error.response?.data?.detail || fallback` in `src/services/api.ts`. -/
def jsOrStr (o : Option String) (fallback : String) : String :=
  match o with
  | some s => if s = "" then fallback else s
  | none => fallback

/-- Definition of `a || b` on an optional number, as in
`error.response?.status || 500` in `src/services/api.ts`. -/
def jsOrNat (o : Option Nat) (fallback : Nat) : Nat :=
  match o with
  | some n => if n = 0 then fallback else n
  | none => fallback

/-- The data an axios error carries that the catch blocks of
`src/services/api.ts` inspect: `error.response?.status` and
`error.response?.data?.detail`, each `none` when the optional chain hits
`undefined` (e.g. no response at all on a network failure). -/
structure AxiosFailure where
  responseStatus : Option Nat
  responseDetail : Option String
deriving DecidableEq, Repr

/-- The shared catch-block body of every api wrapper in
`src/services/api.ts`:
`{ detail: error.response?.data?.detail || fallback,
   status: error.response?.status || 500 }`,
where `fallback` is the per-call-site string. -/
def mkApiError (fallback : String) (f : AxiosFailure) : ApiError :=
  { detail := jsOrStr f.responseDetail fallback
    status := jsOrNat f.responseStatus 500 }

/-- Definition of `chatApi.sendMessage` from `src/services/api.ts`, as a function of the
outcome of the underlying `POST /chat`: on an axios failure it throws
`mkApiError "An error occurred"`.  (The non-axios branch, which rethrows a
generic `Error`, is outside this embedding's failure type.) -/
def chatApi_sendMessage (outcome : Except AxiosFailure ChatResponse) :
    Except ApiError ChatResponse :=
  match outcome with
  | .ok r => .ok r
  | .error f => .error (mkApiError "An error occurred" f)

/-- The `useState` cells of `ChatInterface` that the chat-flow handlers
touch (the title-editing cells are independent and not needed here). -/
structure ChatState where
  messages : List ChatMessage
  isLoading : Bool
  error : Option String
  currentConversationId : Option String
  conversationTitle : String
deriving DecidableEq, Repr

/-- The initial `useState` values of `ChatInterface`. -/
def initialChatState : ChatState :=
  { messages := []
    isLoading := false
    error := none
    currentConversationId := none
    conversationTitle := "New Chat" }

/-- Definition of `startNewChat` from `ChatInterface.tsx`: clears the transcript, the
active conversation id and the error, and resets the title to "New Chat". -/
def startNewChat (st : ChatState) : ChatState :=
  { st with
    messages := []
    currentConversationId := none
    conversationTitle := "New Chat"
    error := none }

/-- Definition of `addMessage` from `ChatInterface.tsx`, restricted to its effect on the
message list: appends an entry with `id = Date.now().toString()` (the clock
reading `now`), the given role, content and optional sources, and
`timestamp = new Date()`. -/
def addMessage (msgs : List ChatMessage) (now : Nat) (role content : String)
    (sources : Option (List Source)) : List ChatMessage :=
  msgs ++ [{ id := toString now
             role := role
             content := content
             timestamp := JsDate.fromMs now
             sources := sources }]

/-- Definition of `loadConversation` from `ChatInterface.tsx`.  `fetch` is the outcome of
`chatApi.getMessages`; the result pairs the post-call state with the id the
fetch was issued for (`none` when the guard returned early and no fetch was
issued).  The thrown value is converted with
`err instanceof Error ? err.message : 'Failed to load conversation'`. -/
def loadConversation (st : ChatState) (conversationId title : String)
    (fetch : Except Thrown (List Message)) : ChatState × Option String :=
  if some conversationId = st.currentConversationId then (st, none)
  else
    let st1 := { st with
                 isLoading := true
                 error := none
                 currentConversationId := some conversationId
                 conversationTitle := title }
    match fetch with
    | .ok conversationMessages =>
        let chatMessages : List ChatMessage :=
          conversationMessages.map (fun msg =>
            { id := msg.id
              role := msg.role
              content := msg.content
              timestamp := JsDate.parse msg.timestamp
              sources := none })
        ({ st1 with messages := chatMessages, isLoading := false },
         some conversationId)
    | .error t =>
        ({ st1 with
           error := some (t.messageOr "Failed to load conversation")
           isLoading := false },
         some conversationId)

/-- JavaScript `String.prototype.trim`: drops leading and trailing
whitespace characters. -/
def jsTrim (s : String) : String :=
  ⟨((s.data.dropWhile Char.isWhitespace).reverse.dropWhile
      Char.isWhitespace).reverse⟩

/-- The title derivation of `handleSendMessage`:
`content.length > 50 ? content.substring(0, 50) + '...' : content`. -/
def deriveTitle (content : String) : String :=
  if content.length > 50 then content.take 50 ++ "..." else content

/-- The result of a `handleSendMessage` run: the post-call state together
with the request sent to `POST /chat` (`none` when the whitespace guard
returned early and nothing was sent). -/
structure SendOutcome where
  state : ChatState
  request : Option ChatRequest
deriving DecidableEq, Repr

/-- Definition of `handleSendMessage` from `ChatInterface.tsx`.  `nowUser` and `nowAsst`
are the `Date.now()` readings of the two `addMessage` calls; `backend` is
the outcome of `chatApi.sendMessage`.  Because the optimistic user entry is
appended through a functional `setMessages` update while `chat_history` is
built from the closure's `messages`, the request's history is the transcript
as it was before the append.  On success the assistant reply is appended
with its sources, and, when no conversation was active and the reply carries
a (truthy) conversation id, that id is adopted and the title derived from
the sent text; on failure only the error string is set.  The `finally`
clause clears `isLoading` on every path past the guard. -/
def handleSendMessage (st : ChatState) (content : String)
    (nowUser nowAsst : Nat) (backend : Except Thrown ChatResponse) :
    SendOutcome :=
  if jsTrim content = "" then ⟨st, none⟩
  else
    let msgs1 := addMessage st.messages nowUser "user" content none
    let st1 := { st with messages := msgs1, isLoading := true, error := none }
    let chatHistory := st.messages.map (fun msg =>
      HistoryEntry.mk msg.role msg.content)
    let req : ChatRequest :=
      { message := content
        chat_history := chatHistory
        conversation_id := orUndefined st.currentConversationId }
    match backend with
    | .ok response =>
        let msgs2 := addMessage msgs1 nowAsst "assistant"
          response.response response.sources
        let st2 := { st1 with messages := msgs2 }
        let st3 :=
          if !strTruthy st.currentConversationId &&
             strTruthy response.conversation_id then
            { st2 with
              currentConversationId := response.conversation_id
              conversationTitle := deriveTitle content }
          else st2
        ⟨{ st3 with isLoading := false }, some req⟩
    | .error t =>
        ⟨{ st1 with
           error := some (t.messageOr "An error occurred")
           isLoading := false },
         some req⟩

/-- Definition of `handleDeleteConversation` from `ChatInterface.tsx`.  `confirmed` is the
result of the `confirm(...)` dialog; `deleteCall` is the outcome of
`chatApi.deleteConversation`.  On success the view is reset with
`startNewChat`; on failure only `error` is set, to
`err.detail || 'Failed to delete conversation'`. -/
def handleDeleteConversation (st : ChatState) (confirmed : Bool)
    (deleteCall : Except Thrown Unit) : ChatState :=
  if !strTruthy st.currentConversationId then st
  else if !confirmed then st
  else
    match deleteCall with
    | .ok _ => startNewChat st
    | .error t =>
        { st with error := some (t.detailOr "Failed to delete conversation") }

/-- Definition of `User` from `src/types/chat.ts`: the session identity. -/
structure User where
  id : String
  email : String
  name : String
  role : String
  created_at : String
deriving DecidableEq, Repr

/-- Definition of `AuthResponse` from `src/types/chat.ts`: the reply of `POST /login`. -/
structure AuthResponse where
  access_token : String
  token_type : String
deriving DecidableEq, Repr

/-- Definition of `authApi.login` from `src/services/api.ts`, as a function of the outcome
of the underlying `POST /login`: on an axios failure it throws
`mkApiError "Login failed"`. -/
def authApi_login (outcome : Except AxiosFailure AuthResponse) :
    Except ApiError AuthResponse :=
  match outcome with
  | .ok r => .ok r
  | .error f => .error (mkApiError "Login failed" f)

/-- Definition of `Conversation` from `src/types/chat.ts`. -/
structure Conversation where
  id : String
  user_id : String
  title : String
  created_at : String
  updated_at : String
deriving DecidableEq, Repr

/-- Definition of the anonymous reply type of `chatApi.healthCheck` in
`src/services/api.ts`: `{ status: string; message: string }`. -/
structure HealthStatus where
  status : String
  message : String
deriving DecidableEq, Repr

/-- Definition of `authApi.register` from `src/services/api.ts`: on an
axios failure it throws `mkApiError "Registration failed"`. -/
def authApi_register (outcome : Except AxiosFailure User) :
    Except ApiError User :=
  match outcome with
  | .ok r => .ok r
  | .error f => .error (mkApiError "Registration failed" f)

/-- Definition of `authApi.getCurrentUser` from `src/services/api.ts`: on
an axios failure it throws `mkApiError "Failed to get user info"`. -/
def authApi_getCurrentUser (outcome : Except AxiosFailure User) :
    Except ApiError User :=
  match outcome with
  | .ok r => .ok r
  | .error f => .error (mkApiError "Failed to get user info" f)

/-- Definition of `chatApi.getConversations` from `src/services/api.ts`:
on an axios failure it throws `mkApiError "Failed to get conversations"`. -/
def chatApi_getConversations (outcome : Except AxiosFailure (List Conversation)) :
    Except ApiError (List Conversation) :=
  match outcome with
  | .ok r => .ok r
  | .error f => .error (mkApiError "Failed to get conversations" f)

/-- Definition of `chatApi.createConversation` from `src/services/api.ts`:
on an axios failure it throws `mkApiError "Failed to create conversation"`. -/
def chatApi_createConversation (outcome : Except AxiosFailure Conversation) :
    Except ApiError Conversation :=
  match outcome with
  | .ok r => .ok r
  | .error f => .error (mkApiError "Failed to create conversation" f)

/-- Definition of `chatApi.getMessages` from `src/services/api.ts`: on an
axios failure it throws `mkApiError "Failed to get messages"`. -/
def chatApi_getMessages (outcome : Except AxiosFailure (List Message)) :
    Except ApiError (List Message) :=
  match outcome with
  | .ok r => .ok r
  | .error f => .error (mkApiError "Failed to get messages" f)

/-- Definition of `chatApi.healthCheck` from `src/services/api.ts`: unlike
every other wrapper, its catch block inspects nothing and throws
`new Error('Backend is not available')` on any failure — an `Error`
instance with a message only, never a detail/status pair. -/
def chatApi_healthCheck (outcome : Except AxiosFailure HealthStatus) :
    Except Thrown HealthStatus :=
  match outcome with
  | .ok r => .ok r
  | .error _ => .error (Thrown.err "Backend is not available")

/-- Definition of `LoginRequest` from `src/types/chat.ts`. -/
structure LoginRequest where
  email : String
  password : String
deriving DecidableEq, Repr

/-- Definition of `RegisterRequest` from `src/types/chat.ts`. -/
structure RegisterRequest where
  email : String
  password : String
  name : String
deriving DecidableEq, Repr

/-- The state of `AuthContext.tsx`: the `user` and `isLoading` cells plus
the `localStorage` slot `auth_token`. -/
structure AuthState where
  user : Option User
  isLoading : Bool
  authToken : Option String
deriving DecidableEq, Repr

/-- Definition of `checkAuthStatus` from `AuthContext.tsx`, as a function of the outcome
of `authApi.getCurrentUser`: on success it stores the identity; on failure
it removes the stored token (`localStorage.removeItem('auth_token')`) and
leaves `user` untouched.  The `finally` clause clears `isLoading`. -/
def checkAuthStatus (st : AuthState) (me : Except ApiError User) : AuthState :=
  match me with
  | .ok userData => { st with user := some userData, isLoading := false }
  | .error _ => { st with authToken := none, isLoading := false }

/-- The result of a fallible session-store operation: the post-call state
and the value it rethrew to its caller, if any. -/
structure AuthOutcome where
  state : AuthState
  thrown : Option ApiError
deriving DecidableEq, Repr

/-- Definition of `login` from `AuthContext.tsx`, as a function of the outcomes of
`authApi.login` and of the `authApi.getCurrentUser` call inside the
subsequent `checkAuthStatus`.  On login failure the error is rethrown and
nothing was stored; on login success the token is persisted and
`checkAuthStatus` runs (whose own failure is swallowed there). -/
def login (st : AuthState) (loginCall : Except ApiError AuthResponse)
    (meCall : Except ApiError User) : AuthOutcome :=
  match loginCall with
  | .error e => ⟨st, some e⟩
  | .ok response =>
      let st1 := { st with authToken := some response.access_token }
      ⟨checkAuthStatus st1 meCall, none⟩

/-- The result of a `register` run: the post-call state, the rethrown value
if any, and the `LoginRequest` passed to the inner `login` call (`none`
when registration failed before login was attempted). -/
structure RegisterOutcome where
  state : AuthState
  thrown : Option ApiError
  loginIssued : Option LoginRequest
deriving DecidableEq, Repr

/-- Definition of `register` from `AuthContext.tsx`: issues `authApi.register`, and on its
success calls `login` with `{ email: userData.email, password:
userData.password }`; a failure of either step is rethrown. -/
def register (st : AuthState) (userData : RegisterRequest)
    (registerCall : Except ApiError User)
    (loginCall : Except ApiError AuthResponse)
    (meCall : Except ApiError User) : RegisterOutcome :=
  match registerCall with
  | .error e => ⟨st, some e, none⟩
  | .ok _ =>
      let credentials : LoginRequest :=
        { email := userData.email, password := userData.password }
      let out := login st loginCall meCall
      ⟨out.state, out.thrown, some credentials⟩

/-- Definition of `logout` from `AuthContext.tsx`. -/
def logout (st : AuthState) : AuthState :=
  { st with authToken := none, user := none }

/-- A sample transcript entry, used for concrete evaluations. -/
def sampleMsg : ChatMessage :=
  { id := "10"
    role := "user"
    content := "hi"
    timestamp := JsDate.fromMs 10
    sources := none }

/-- A sample chat-view state with conversation "c1" active, used for
concrete evaluations. -/
def sampleActiveState : ChatState :=
  { messages := [sampleMsg]
    isLoading := false
    error := none
    currentConversationId := some "c1"
    conversationTitle := "First chat" }

/-! ## The claims -/

/-- C10: a send invocation whose content is empty or whitespace-only is a
no-op: no transcript entry is appended, no request is issued, and the
conversation id, title, loading flag and error are unchanged. -/
theorem send_whitespace_is_noop (st : ChatState) (content : String)
    (nowUser nowAsst : Nat) (backend : Except Thrown ChatResponse)
    (h : jsTrim content = "") :
    handleSendMessage st content nowUser nowAsst backend = ⟨st, none⟩ := by
  simp [handleSendMessage, h]

/-- Concrete instance of `send_whitespace_is_noop` at content `"  "`. -/
theorem send_whitespace_is_noop_witness :
    jsTrim "  " = "" ∧
      handleSendMessage initialChatState "  " 1 2
          (Except.error (Thrown.err "network down")) =
        ⟨initialChatState, none⟩ :=
  ⟨by decide,
   send_whitespace_is_noop initialChatState "  " 1 2
     (Except.error (Thrown.err "network down")) (by decide)⟩

/-- C9: every issued send request carries as `chat_history` the transcript
as it was before the optimistic user entry was appended — the message being
sent is never part of the history (it appears only in the `message`
field). -/
theorem send_history_excludes_current_message (st : ChatState)
    (content : String) (nowUser nowAsst : Nat)
    (backend : Except Thrown ChatResponse) (h : jsTrim content ≠ "") :
    (handleSendMessage st content nowUser nowAsst backend).request =
      some { message := content
             chat_history := st.messages.map (fun msg =>
               { role := msg.role, content := msg.content })
             conversation_id := orUndefined st.currentConversationId } := by
  cases backend <;> simp [handleSendMessage, h]

/-- Concrete instance of `send_history_excludes_current_message`: with one
prior entry, the request history holds only that entry, not "next". -/
theorem send_history_excludes_current_message_witness :
    jsTrim "next" ≠ "" ∧
      (handleSendMessage sampleActiveState "next" 3 4
          (Except.ok { response := "ok", sources := none, conversation_id := none })).request =
        some { message := "next"
               chat_history := [{ role := "user", content := "hi" }]
               conversation_id := some "c1" } := by
  have h := send_history_excludes_current_message sampleActiveState "next" 3 4
    (Except.ok { response := "ok", sources := none, conversation_id := none })
    (by decide)
  exact ⟨by decide, h.trans (by decide)⟩

/-- C3: a send whose backend call throws leaves the transcript equal to the
prior transcript extended by exactly the one optimistic user entry (content
= the sent text, id = the client clock reading, no sources), appends no
assistant entry, records the failure only as the inline error string, and
leaves conversation id and title unchanged. -/
theorem send_failure_appends_only_user_entry (st : ChatState)
    (content : String) (nowUser nowAsst : Nat) (t : Thrown)
    (h : jsTrim content ≠ "") :
    (handleSendMessage st content nowUser nowAsst (Except.error t)).state =
      { st with
        messages := st.messages ++
          [{ id := toString nowUser
             role := "user"
             content := content
             timestamp := JsDate.fromMs nowUser
             sources := none }]
        isLoading := false
        error := some (t.messageOr "An error occurred") } := by
  simp [handleSendMessage, addMessage, h]

/-- Concrete instance of `send_failure_appends_only_user_entry` at a failed
send of "next" over `sampleActiveState`. -/
theorem send_failure_appends_only_user_entry_witness :
    jsTrim "next" ≠ "" ∧
      (handleSendMessage sampleActiveState "next" 3 4
          (Except.error (Thrown.api { detail := "boom", status := 500 }))).state =
        { messages := [sampleMsg,
            { id := "3"
              role := "user"
              content := "next"
              timestamp := JsDate.fromMs 3
              sources := none }]
          isLoading := false
          error := some "An error occurred"
          currentConversationId := some "c1"
          conversationTitle := "First chat" } := by
  have h := send_failure_appends_only_user_entry sampleActiveState "next" 3 4
    (Thrown.api { detail := "boom", status := 500 }) (by decide)
  exact ⟨by decide, h.trans (by decide)⟩

/-- C1: a successful send with no active conversation whose reply carries a
conversation id adopts that id as the current conversation id and sets the
title to the sent text itself when its length is at most 50 characters, and
to its first 50 characters followed by the ellipsis "..." when longer. -/
theorem send_new_chat_adopts_id_and_title (st : ChatState) (content : String)
    (nowUser nowAsst : Nat) (response : ChatResponse)
    (hguard : jsTrim content ≠ "")
    (hnone : strTruthy st.currentConversationId = false)
    (hcid : strTruthy response.conversation_id = true) :
    (handleSendMessage st content nowUser nowAsst
          (Except.ok response)).state.currentConversationId =
        response.conversation_id ∧
      (handleSendMessage st content nowUser nowAsst
          (Except.ok response)).state.conversationTitle =
        (if content.length > 50 then content.take 50 ++ "..." else content) := by
  simp [handleSendMessage, deriveTitle, hguard, hnone, hcid]

/-- Concrete instance of `send_new_chat_adopts_id_and_title`: a 54-character
message starting a new chat yields a 50-character-plus-"..." title and
adopts the returned id. -/
theorem send_new_chat_adopts_id_and_title_witness :
    jsTrim "please summarise the quarterly report for me in detail" ≠ "" ∧
      strTruthy initialChatState.currentConversationId = false ∧
      strTruthy (some "conv-1") = true ∧
      (handleSendMessage initialChatState
          "please summarise the quarterly report for me in detail" 1 2
          (Except.ok { response := "done"
                       sources := none
                       conversation_id := some "conv-1" })).state.currentConversationId =
        some "conv-1" ∧
      (handleSendMessage initialChatState
          "please summarise the quarterly report for me in detail" 1 2
          (Except.ok { response := "done"
                       sources := none
                       conversation_id := some "conv-1" })).state.conversationTitle =
        "please summarise the quarterly report for me in de..." := by
  have h := send_new_chat_adopts_id_and_title initialChatState
    "please summarise the quarterly report for me in detail" 1 2
    { response := "done", sources := none, conversation_id := some "conv-1" }
    (by decide) (by decide) (by decide)
  exact ⟨by decide, by decide, by decide, h.1, h.2.trans (by decide)⟩

/-- C4: a successful conversation load replaces the transcript wholesale by
the persisted messages mapped to entries carrying their id, role, content
and parsed timestamp; no entry of the reloaded transcript carries source
citations, so live-session citations are dropped. -/
theorem load_success_replaces_transcript (st : ChatState)
    (conversationId title : String) (msgs : List Message)
    (h : some conversationId ≠ st.currentConversationId) :
    (loadConversation st conversationId title (Except.ok msgs)).1.messages =
        msgs.map (fun msg =>
          { id := msg.id
            role := msg.role
            content := msg.content
            timestamp := JsDate.parse msg.timestamp
            sources := none }) ∧
      ∀ entry ∈ (loadConversation st conversationId title
          (Except.ok msgs)).1.messages, entry.sources = none := by
  constructor
  · simp [loadConversation, h]
  · intro entry hmem
    simp [loadConversation, h] at hmem
    obtain ⟨msg, _, rfl⟩ := hmem
    rfl

/-- Concrete instance of `load_success_replaces_transcript`: loading "c2"
over a state whose live transcript held a cited entry yields exactly the
mapped persisted messages, with no sources. -/
theorem load_success_replaces_transcript_witness :
    some "c2" ≠ sampleActiveState.currentConversationId ∧
      (loadConversation sampleActiveState "c2" "Second chat"
          (Except.ok [{ id := "m1"
                        conversation_id := "c2"
                        user_id := "u1"
                        content := "hello"
                        role := "user"
                        timestamp := "2024-01-01" }])).1.messages =
        [{ id := "m1"
           role := "user"
           content := "hello"
           timestamp := JsDate.parse "2024-01-01"
           sources := none }] := by
  have h := load_success_replaces_transcript sampleActiveState "c2"
    "Second chat"
    [{ id := "m1", conversation_id := "c2", user_id := "u1",
       content := "hello", role := "user", timestamp := "2024-01-01" }]
    (by decide)
  exact ⟨by decide, h.1.trans (by decide)⟩

/-- C2 counterexample: with conversation "c1" active and the delete call
confirmed, a failed delete call does not return the view to the new-chat
state — the current conversation id is still "c1", not cleared. -/
theorem delete_failure_keeps_conversation_counterexample :
    (handleDeleteConversation sampleActiveState true
        (Except.error
          (Thrown.api { detail := "boom", status := 500 }))).currentConversationId ≠
      none := by
  decide

/-- C2 amended: a confirmed delete with an active conversation resets the
view to the new-chat state when the delete call succeeds, regardless of
which conversation was active; when the delete call fails, transcript,
conversation id and title are unchanged and only the inline error string is
set. -/
theorem delete_resets_on_success_only (st : ChatState)
    (h : strTruthy st.currentConversationId = true) :
    handleDeleteConversation st true (Except.ok ()) =
        { st with
          messages := []
          currentConversationId := none
          conversationTitle := "New Chat"
          error := none } ∧
      ∀ t, handleDeleteConversation st true (Except.error t) =
        { st with error := some (t.detailOr "Failed to delete conversation") } := by
  constructor
  · simp [handleDeleteConversation, startNewChat, h]
  · intro t
    simp [handleDeleteConversation, h]

/-- Concrete instance of `delete_resets_on_success_only` over
`sampleActiveState`. -/
theorem delete_resets_on_success_only_witness :
    strTruthy sampleActiveState.currentConversationId = true ∧
      handleDeleteConversation sampleActiveState true (Except.ok ()) =
        { messages := []
          isLoading := false
          error := none
          currentConversationId := none
          conversationTitle := "New Chat" } ∧
      handleDeleteConversation sampleActiveState true
          (Except.error (Thrown.api { detail := "boom", status := 500 })) =
        { sampleActiveState with error := some "boom" } := by
  have h := delete_resets_on_success_only sampleActiveState (by decide)
  exact ⟨by decide, h.1.trans (by decide),
    (h.2 (Thrown.api { detail := "boom", status := 500 })).trans (by decide)⟩

/-- C5: a failed login rethrows the error, stores no token and leaves the
prior session state entirely unchanged; a failed token validation at
startup (identity not yet set, a token stored) removes the stored token and
leaves the user unauthenticated. -/
theorem login_failure_and_startup_validation (st : AuthState) (e : ApiError)
    (meCall : Except ApiError User) (tok : String) (e2 : ApiError) :
    login st (Except.error e) meCall = ⟨st, some e⟩ ∧
      checkAuthStatus { user := none, isLoading := true, authToken := some tok }
          (Except.error e2) =
        { user := none, isLoading := false, authToken := none } := by
  exact ⟨rfl, rfl⟩

/-- C8: register issues the account-creation call first — its failure is
rethrown with no login attempted and no state change — and on its success
performs login with exactly the registered email and password; a failure of
that login is rethrown as well. -/
theorem register_creates_then_logs_in (st : AuthState)
    (userData : RegisterRequest) :
    (∀ e loginCall meCall,
        register st userData (Except.error e) loginCall meCall =
          ⟨st, some e, none⟩) ∧
      (∀ u loginCall meCall,
        (register st userData (Except.ok u) loginCall meCall).loginIssued =
          some { email := userData.email, password := userData.password }) ∧
      (∀ u e meCall,
        register st userData (Except.ok u) (Except.error e) meCall =
          ⟨st, some e,
           some { email := userData.email, password := userData.password }⟩) :=
  ⟨fun _ _ _ => rfl, fun _ _ _ => rfl, fun _ _ _ => rfl⟩

/-- C6 counterexample: `chatApi.healthCheck` is an api wrapper whose call
fails here with a backend-reported error (detail "Service unavailable",
status 503), yet the value it throws is the generic
`Error('Backend is not available')` — an `Error` instance carrying only a
message, not a detail/status pair; the reported detail and status are
discarded. -/
theorem health_check_generic_error_counterexample :
    chatApi_healthCheck (Except.error
        { responseStatus := some 503
          responseDetail := some "Service unavailable" }) =
      Except.error (Thrown.err "Backend is not available") := by
  rfl

/-- C6 amended: every api wrapper except `healthCheck` throws, on an axios
failure, the uniform pair built by `mkApiError`: the backend's detail
string when one is present (and non-empty, per JavaScript truthiness), the
per-call-site fallback otherwise, and the response's status when present
(and non-zero), 500 otherwise; `healthCheck` instead converts every
failure, backend-reported or not, to the generic
`Error "Backend is not available"` with no status. -/
theorem api_error_uniform_shape_amended (fallback : String) (f : AxiosFailure) :
    ((∀ s, f.responseDetail = some s → s ≠ "" →
        (mkApiError fallback f).detail = s) ∧
      (f.responseDetail = none → (mkApiError fallback f).detail = fallback) ∧
      (∀ n, f.responseStatus = some n → n ≠ 0 →
        (mkApiError fallback f).status = n) ∧
      (f.responseStatus = none → (mkApiError fallback f).status = 500)) ∧
    authApi_login (Except.error f) =
      Except.error (mkApiError "Login failed" f) ∧
    authApi_register (Except.error f) =
      Except.error (mkApiError "Registration failed" f) ∧
    authApi_getCurrentUser (Except.error f) =
      Except.error (mkApiError "Failed to get user info" f) ∧
    chatApi_sendMessage (Except.error f) =
      Except.error (mkApiError "An error occurred" f) ∧
    chatApi_getConversations (Except.error f) =
      Except.error (mkApiError "Failed to get conversations" f) ∧
    chatApi_createConversation (Except.error f) =
      Except.error (mkApiError "Failed to create conversation" f) ∧
    chatApi_getMessages (Except.error f) =
      Except.error (mkApiError "Failed to get messages" f) ∧
    chatApi_healthCheck (Except.error f) =
      Except.error (Thrown.err "Backend is not available") := by
  refine ⟨⟨?_, ?_, ?_, ?_⟩, rfl, rfl, rfl, rfl, rfl, rfl, rfl, rfl⟩
  · intro s hs hne
    simp [mkApiError, jsOrStr, hs, hne]
  · intro hs
    simp [mkApiError, jsOrStr, hs]
  · intro n hn hne
    simp [mkApiError, jsOrNat, hn, hne]
  · intro hn
    simp [mkApiError, jsOrNat, hn]

/-- Concrete instance of `api_error_uniform_shape_amended`: a backend
failure with status 404 and detail "Not found" is thrown verbatim; one with
no response at all falls back to the call site's string and status 500. -/
theorem api_error_uniform_shape_amended_witness :
    (mkApiError "Login failed"
        { responseStatus := some 404, responseDetail := some "Not found" }).detail =
      "Not found" ∧
    (mkApiError "Login failed"
        { responseStatus := some 404, responseDetail := some "Not found" }).status =
      404 ∧
    (mkApiError "Login failed"
        { responseStatus := none, responseDetail := none }).detail =
      "Login failed" ∧
    (mkApiError "Login failed"
        { responseStatus := none, responseDetail := none }).status = 500 := by
  have h1 := api_error_uniform_shape_amended "Login failed"
    { responseStatus := some 404, responseDetail := some "Not found" }
  have h2 := api_error_uniform_shape_amended "Login failed"
    { responseStatus := none, responseDetail := none }
  exact ⟨h1.1.1 "Not found" rfl (by decide), h1.1.2.2.1 404 rfl (by decide),
    h2.1.2.1 rfl, h2.1.2.2.2 rfl⟩

end Davefront
